import Mathlib

/-!
# Sharp LQ079L1SX01 dual-link DSI panel driver

A shallow embedding of `drivers/gpu/drm/panel/panel-sharp-lq079l1sx01.c`.

The driver is sequential C code that talks to four kinds of collaborators:
three regulators, one reset GPIO, two DSI links and an optional backlight
device.  Every call the driver makes to one of them is recorded, in program
order, in a trace; the value a call returns is supplied by an oracle that
may depend on everything that happened before.  Driver functions are
state-passing functions over `Machine`.

Diagnostic printing (`DRM_INFO`, `dev_err`, `pr_info`, the message of
`WARN_ON`) changes neither the panel nor the control flow and is not
recorded.
-/

namespace SharpPanel

/-! ## Collaborators -/

/-- The three supplies held by `struct sharp_panel`. -/
inductive Rail where
  | dvdd_lcd_1v8
  | avdd_lcd_vsp_5v5
  | avdd_lcd_vsn_5v5
deriving DecidableEq, Repr

/-- The two DSI peripherals held by `struct sharp_panel`. -/
inductive Link where
  | link1
  | link2
deriving DecidableEq, Repr

/-- One call made by the driver to a collaborator, with its arguments. -/
inductive Call where
  | regulator_enable (r : Rail)
  | regulator_disable (r : Rail)
  | gpio_get_value (gpio : Int)
  | gpio_direction_output (gpio : Int) (value : Int)
  | gpio_set_value (gpio : Int) (value : Int)
  | msleep (msecs : Nat)
  | usleep_range (min max : Nat)
  | mipi_dsi_dcs_set_display_off (dsi : Link)
  | mipi_dsi_dcs_enter_sleep_mode (dsi : Link)
  | mipi_dsi_dcs_exit_sleep_mode (dsi : Link)
  | mipi_dsi_dcs_set_display_on (dsi : Link)
  | mipi_dsi_dcs_set_pixel_format (dsi : Link) (format : Nat)
  | mipi_dsi_dcs_set_column_address (dsi : Link) (start stop : Nat)
  | mipi_dsi_dcs_set_page_address (dsi : Link) (start stop : Nat)
  | mipi_dsi_dcs_write (dsi : Link) (cmd : Nat) (data : List Nat)
  | backlight_update_status
deriving DecidableEq, Repr

/-- The return value of a call, given the calls made before it (oldest
first).  For `mipi_dsi_dcs_write` it is the value as stored in the
driver's `int ret`. -/
abbrev Oracle := List Call → Call → Int

/-- Which supplies are currently on. -/
structure Rails where
  dvdd_lcd_1v8 : Bool
  avdd_lcd_vsp_5v5 : Bool
  avdd_lcd_vsn_5v5 : Bool
deriving DecidableEq, Repr

/-- Switch one supply. -/
def Rails.set (rs : Rails) (r : Rail) (v : Bool) : Rails :=
  match r with
  | .dvdd_lcd_1v8 => { rs with dvdd_lcd_1v8 := v }
  | .avdd_lcd_vsp_5v5 => { rs with avdd_lcd_vsp_5v5 := v }
  | .avdd_lcd_vsn_5v5 => { rs with avdd_lcd_vsn_5v5 := v }

/-- Status of one supply. -/
def Rails.get (rs : Rails) (r : Rail) : Bool :=
  match r with
  | .dvdd_lcd_1v8 => rs.dvdd_lcd_1v8
  | .avdd_lcd_vsp_5v5 => rs.avdd_lcd_vsp_5v5
  | .avdd_lcd_vsn_5v5 => rs.avdd_lcd_vsn_5v5

/-- All three supplies off. -/
def Rails.all_off : Rails := ⟨false, false, false⟩

/-! ## Driver data -/

/-- The fields of `struct drm_display_mode` that `default_mode` sets
(all of C type `int`). -/
structure drm_display_mode where
  clock : Int
  hdisplay : Int
  hsync_start : Int
  hsync_end : Int
  htotal : Int
  vdisplay : Int
  vsync_start : Int
  vsync_end : Int
  vtotal : Int
  vrefresh : Int
deriving DecidableEq, Repr

/-- The driver state, `struct sharp_panel`.  `backlight` is `none` for a
NULL pointer and otherwise holds `props.power` of the attached device;
`link1`, `link2` and the three regulator handles are the constants of
`Link` and `Rail`. -/
structure sharp_panel where
  backlight : Option Int
  reset_gpio : Int
  prepared : Bool
  enabled : Bool
  mode : drm_display_mode
deriving DecidableEq, Repr

/-- The driver state together with the state of its collaborators. -/
structure Machine where
  sharp : sharp_panel
  rails : Rails
  trace : List Call
deriving DecidableEq, Repr

/-! ## Constants -/

/-- The macro `TO_DSI(x)`, `((x) & 0xFF)`. -/
def TO_DSI (x : Nat) : Nat := x &&& 0xFF

/-- Opcode 0x51. -/
def MIPI_DCS_RSP_WRITE_DISPLAY_BRIGHTNESS : Nat := 0x51

/-- Opcode 0x53. -/
def MIPI_DCS_RSP_WRITE_CONTROL_DISPLAY : Nat := 0x53

/-- Opcode 0x55. -/
def MIPI_DCS_RSP_WRITE_ADAPTIVE_BRIGHTNESS_CONTROL : Nat := 0x55

/-- Modelled from the spec: `MIPI_DCS_PIXEL_FMT_24BIT` comes from
`video/mipi_display.h`, which is not among the sources; it is the code of
the fixed 24-bit RGB pixel format, 7 in the MIPI DCS standard. -/
def MIPI_DCS_PIXEL_FMT_24BIT : Nat := 7

/-- Modelled from the spec: `FB_BLANK_UNBLANK` comes from `linux/fb.h`,
which is not among the sources; it is the power state "on" of the
brightness sink. -/
def FB_BLANK_UNBLANK : Int := 0

/-- Modelled from the spec: `FB_BLANK_POWERDOWN` comes from `linux/fb.h`,
which is not among the sources; it is the power state "off" of the
brightness sink. -/
def FB_BLANK_POWERDOWN : Int := 4

/-- The only mode of the panel, `default_mode`. -/
def default_mode : drm_display_mode where
  clock := 214825
  hdisplay := 1536
  hsync_start := 1536 + 136
  hsync_end := 1536 + 136 + 28
  htotal := 1536 + 136 + 28 + 28
  vdisplay := 2048
  vsync_start := 2048 + 14
  vsync_end := 2048 + 14 + 2
  vtotal := 2048 + 14 + 2 + 8
  vrefresh := 60

/-! ## Collaborator calls -/

/-- A call whose returned value comes from the oracle and that changes no
supply: it is appended to the trace. -/
def call (env : Oracle) (c : Call) (m : Machine) : Int × Machine :=
  (env m.trace c, { m with trace := m.trace ++ [c] })

/-- A call to a `void` function: it is appended to the trace. -/
def emit (c : Call) (m : Machine) : Machine :=
  { m with trace := m.trace ++ [c] }

/-- Modelled from the spec: `regulator_enable` belongs to the regulator
core, which is not among the sources.  The rail resource's enable may fail
(a negative return); otherwise the rail is on afterwards. -/
def regulator_enable (env : Oracle) (r : Rail) (m : Machine) : Int × Machine :=
  let ret := env m.trace (.regulator_enable r)
  (ret, { m with
    rails := if ret < 0 then m.rails else m.rails.set r true
    trace := m.trace ++ [.regulator_enable r] })

/-- Modelled from the spec: `regulator_disable` belongs to the regulator
core, which is not among the sources.  The rail resource's disable is
unconditional and idempotent and never fails observably: the rail is off
afterwards. -/
def regulator_disable (env : Oracle) (r : Rail) (m : Machine) : Int × Machine :=
  (env m.trace (.regulator_disable r), { m with
    rails := m.rails.set r false
    trace := m.trace ++ [.regulator_disable r] })

/-- Block for `msecs` milliseconds. -/
def msleep (msecs : Nat) (m : Machine) : Machine :=
  emit (.msleep msecs) m

/-- Block for between `min` and `max` microseconds. -/
def usleep_range (min max : Nat) (m : Machine) : Machine :=
  emit (.usleep_range min max) m

/-- Read the level of a GPIO line. -/
def gpio_get_value (env : Oracle) (gpio : Int) (m : Machine) : Int × Machine :=
  call env (.gpio_get_value gpio) m

/-- Make a GPIO line an output at the given level. -/
def gpio_direction_output (env : Oracle) (gpio value : Int) (m : Machine) :
    Int × Machine :=
  call env (.gpio_direction_output gpio value) m

/-- Drive a GPIO line (a `void` function). -/
def gpio_set_value (gpio value : Int) (m : Machine) : Machine :=
  emit (.gpio_set_value gpio value) m

/-- DCS command: display off. -/
def mipi_dsi_dcs_set_display_off (env : Oracle) (dsi : Link) (m : Machine) :
    Int × Machine :=
  call env (.mipi_dsi_dcs_set_display_off dsi) m

/-- DCS command: enter sleep mode. -/
def mipi_dsi_dcs_enter_sleep_mode (env : Oracle) (dsi : Link) (m : Machine) :
    Int × Machine :=
  call env (.mipi_dsi_dcs_enter_sleep_mode dsi) m

/-- DCS command: exit sleep mode. -/
def mipi_dsi_dcs_exit_sleep_mode (env : Oracle) (dsi : Link) (m : Machine) :
    Int × Machine :=
  call env (.mipi_dsi_dcs_exit_sleep_mode dsi) m

/-- DCS command: display on. -/
def mipi_dsi_dcs_set_display_on (env : Oracle) (dsi : Link) (m : Machine) :
    Int × Machine :=
  call env (.mipi_dsi_dcs_set_display_on dsi) m

/-- DCS command: set pixel format. -/
def mipi_dsi_dcs_set_pixel_format (env : Oracle) (dsi : Link) (format : Nat)
    (m : Machine) : Int × Machine :=
  call env (.mipi_dsi_dcs_set_pixel_format dsi format) m

/-- Conversion of a C `int` to the `u16` parameter of the address-window
commands. -/
def u16 (x : Int) : Nat := (x % 65536).toNat

/-- DCS command: set the column window; both bounds are `u16`. -/
def mipi_dsi_dcs_set_column_address (env : Oracle) (dsi : Link) (start stop : Int)
    (m : Machine) : Int × Machine :=
  call env (.mipi_dsi_dcs_set_column_address dsi (u16 start) (u16 stop)) m

/-- DCS command: set the page window; both bounds are `u16`. -/
def mipi_dsi_dcs_set_page_address (env : Oracle) (dsi : Link) (start stop : Int)
    (m : Machine) : Int × Machine :=
  call env (.mipi_dsi_dcs_set_page_address dsi (u16 start) (u16 stop)) m

/-- DCS write of an opcode with a payload. -/
def mipi_dsi_dcs_write (env : Oracle) (dsi : Link) (cmd : Nat) (data : List Nat)
    (m : Machine) : Int × Machine :=
  call env (.mipi_dsi_dcs_write dsi cmd data) m

/-- Notify the backlight device that its properties changed. -/
def backlight_update_status (env : Oracle) (m : Machine) : Int × Machine :=
  call env .backlight_update_status m

/-- Modelled from the spec: `drm_mode_vrefresh` belongs to the DRM core,
which is not among the sources; it yields the refresh rate of the mode,
its `vrefresh` field. -/
def drm_mode_vrefresh (mode : drm_display_mode) : Int := mode.vrefresh

/-- Conversion of a C `int` to `unsigned int`. -/
def to_uint (x : Int) : Nat := (x % 4294967296).toNat

/-! ## Driver functions -/

/-- The function `sharp_wait_frames`.  `none` is a division by zero, either
`refresh / frames` or `1000 / (refresh / frames)`. -/
def sharp_wait_frames (m : Machine) (frames : Nat) : Option Machine :=
  let refresh := to_uint (drm_mode_vrefresh m.sharp.mode)
  if frames > refresh then some m
  else if frames = 0 then none
  else if refresh / frames = 0 then none
  else some (msleep (1000 / (refresh / frames)) m)

/-- The function `sharp_panel_disable`. -/
def sharp_panel_disable (env : Oracle) (m : Machine) : Int × Machine :=
  if !m.sharp.enabled then (0, m) else
  let m :=
    match m.sharp.backlight with
    | some _ =>
      (backlight_update_status env
        { m with sharp := { m.sharp with backlight := some FB_BLANK_POWERDOWN } }).2
    | none => m
  (0, { m with sharp := { m.sharp with enabled := false } })

/-- The function `sharp_panel_unprepare`. -/
def sharp_panel_unprepare (env : Oracle) (m : Machine) : Int × Machine :=
  if !m.sharp.prepared then (0, m) else
  let m := (mipi_dsi_dcs_set_display_off env .link1 m).2
  let m := (mipi_dsi_dcs_set_display_off env .link2 m).2
  let m := msleep 100 m
  let m := (mipi_dsi_dcs_enter_sleep_mode env .link1 m).2
  let m := (mipi_dsi_dcs_enter_sleep_mode env .link2 m).2
  let m := msleep 150 m
  let m := (regulator_disable env .avdd_lcd_vsn_5v5 m).2
  let m := (regulator_disable env .avdd_lcd_vsp_5v5 m).2
  let m := (regulator_disable env .dvdd_lcd_1v8 m).2
  (0, { m with sharp := { m.sharp with prepared := false } })

/-- The function `sharp_setup_symmetrical_split`; C division of `int`
truncates. -/
def sharp_setup_symmetrical_split (env : Oracle) (left right : Link)
    (mode : drm_display_mode) (m : Machine) : Int × Machine :=
  let r := mipi_dsi_dcs_set_column_address env left 0 (mode.hdisplay.tdiv 2 - 1) m
  if r.1 < 0 then r else
  let r := mipi_dsi_dcs_set_page_address env left 0 (mode.vdisplay - 1) r.2
  if r.1 < 0 then r else
  let r := mipi_dsi_dcs_set_column_address env right (mode.hdisplay.tdiv 2)
    (mode.hdisplay - 1) r.2
  if r.1 < 0 then r else
  let r := mipi_dsi_dcs_set_page_address env right 0 (mode.vdisplay - 1) r.2
  if r.1 < 0 then r else
  (0, r.2)

/-- The function `panel_sharp_write_adaptive_brightness_control`. -/
def panel_sharp_write_adaptive_brightness_control (env : Oracle) (m : Machine) :
    Int × Machine :=
  let data := TO_DSI 0x01
  let r := mipi_dsi_dcs_write env .link1
    MIPI_DCS_RSP_WRITE_ADAPTIVE_BRIGHTNESS_CONTROL [data] m
  if r.1 < 1 then r else
  let r := mipi_dsi_dcs_write env .link2
    MIPI_DCS_RSP_WRITE_ADAPTIVE_BRIGHTNESS_CONTROL [data] r.2
  if r.1 < 1 then r else
  (0, r.2)

/-- The function `panel_sharp_write_display_brightness`. -/
def panel_sharp_write_display_brightness (env : Oracle) (m : Machine) :
    Int × Machine :=
  let data := TO_DSI 0xFF
  let r := mipi_dsi_dcs_write env .link1 MIPI_DCS_RSP_WRITE_DISPLAY_BRIGHTNESS [data] m
  if r.1 < 1 then r else
  let r := mipi_dsi_dcs_write env .link2 MIPI_DCS_RSP_WRITE_DISPLAY_BRIGHTNESS [data] r.2
  if r.1 < 1 then r else
  (0, r.2)

/-- The function `panel_sharp_write_control_display`. -/
def panel_sharp_write_control_display (env : Oracle) (m : Machine) :
    Int × Machine :=
  let data := TO_DSI 0x01
  let r := mipi_dsi_dcs_write env .link1 MIPI_DCS_RSP_WRITE_CONTROL_DISPLAY [data] m
  if r.1 < 1 then r else
  let r := mipi_dsi_dcs_write env .link2 MIPI_DCS_RSP_WRITE_CONTROL_DISPLAY [data] r.2
  if r.1 < 1 then r else
  (0, r.2)

/-- The label `poweroff` of `sharp_panel_prepare`. -/
def poweroff (env : Oracle) (err : Int) (m : Machine) : Int × Machine :=
  let m := (regulator_disable env .avdd_lcd_vsn_5v5 m).2
  let m := (regulator_disable env .avdd_lcd_vsp_5v5 m).2
  let m := (regulator_disable env .dvdd_lcd_1v8 m).2
  (err, m)

/-- The reset pulse of `sharp_panel_prepare`, run when the reset line
reads 0. -/
def reset_pulse (env : Oracle) (m : Machine) : Machine :=
  let g := gpio_get_value env m.sharp.reset_gpio m
  if g.1 = 0 then
    let m := (gpio_direction_output env g.2.sharp.reset_gpio 1 g.2).2
    let m := usleep_range 1000 3000 m
    let m := gpio_set_value m.sharp.reset_gpio 0 m
    let m := usleep_range 1000 3000 m
    let m := gpio_set_value m.sharp.reset_gpio 1 m
    msleep 32 m
  else g.2

/-- The part of `sharp_panel_prepare` from the pixel format on. -/
def prepare_commands (env : Oracle) (m : Machine) : Int × Machine :=
  let format := MIPI_DCS_PIXEL_FMT_24BIT
  let r := mipi_dsi_dcs_set_pixel_format env .link1 format m
  if r.1 < 0 then poweroff env r.1 r.2 else
  let r := mipi_dsi_dcs_set_pixel_format env .link2 format r.2
  if r.1 < 0 then poweroff env r.1 r.2 else
  let r := panel_sharp_write_display_brightness env r.2
  if r.1 < 0 then poweroff env r.1 r.2 else
  let m := msleep 20 r.2
  let r := panel_sharp_write_adaptive_brightness_control env m
  if r.1 < 0 then poweroff env r.1 r.2 else
  let m := msleep 20 r.2
  let r := panel_sharp_write_control_display env m
  if r.1 < 0 then poweroff env r.1 r.2 else
  let m := msleep 20 r.2
  let r := mipi_dsi_dcs_set_display_on env .link1 m
  if r.1 < 0 then poweroff env r.1 r.2 else
  let r := mipi_dsi_dcs_set_display_on env .link2 r.2
  if r.1 < 0 then poweroff env r.1 r.2 else
  let m := msleep 150 r.2
  (0, { m with sharp := { m.sharp with prepared := true } })

/-- The function `sharp_panel_prepare`.  `none` is a division by zero in
`sharp_wait_frames`. -/
def sharp_panel_prepare (env : Oracle) (m : Machine) : Option (Int × Machine) :=
  if m.sharp.prepared then some (0, m) else
  let r := regulator_enable env .dvdd_lcd_1v8 m
  if r.1 < 0 then some r else
  let m := msleep 12 r.2
  let r := regulator_enable env .avdd_lcd_vsp_5v5 m
  if r.1 < 0 then some r else
  let m := msleep 12 r.2
  let r := regulator_enable env .avdd_lcd_vsn_5v5 m
  if r.1 < 0 then some r else
  let m := msleep 70 r.2
  let m := reset_pulse env m
  let r := sharp_setup_symmetrical_split env .link2 .link1 m.sharp.mode m
  if r.1 < 0 then some (poweroff env r.1 r.2) else
  let m := (mipi_dsi_dcs_exit_sleep_mode env .link1 r.2).2
  let m := (mipi_dsi_dcs_exit_sleep_mode env .link2 m).2
  match sharp_wait_frames m 6 with
  | none => none
  | some m => some (prepare_commands env m)

/-- The function `sharp_panel_enable`. -/
def sharp_panel_enable (env : Oracle) (m : Machine) : Int × Machine :=
  if m.sharp.enabled then (0, m) else
  let m :=
    match m.sharp.backlight with
    | some _ =>
      (backlight_update_status env
        { m with sharp := { m.sharp with backlight := some FB_BLANK_UNBLANK } }).2
    | none => m
  (0, { m with sharp := { m.sharp with enabled := true } })

/-! ## Concrete collaborators and states -/

/-- Every call succeeds: commands and rail enables return 0, a DCS write
returns the one byte it transmitted, and the reset line reads low. -/
def env_ok : Oracle := fun _ c =>
  match c with
  | .mipi_dsi_dcs_write _ _ _ => 1
  | _ => 0

/-- As `env_ok`, with the reset line reading high. -/
def env_reset_high : Oracle := fun _ c =>
  match c with
  | .mipi_dsi_dcs_write _ _ _ => 1
  | .gpio_get_value _ => 1
  | _ => 0

/-- As `env_ok`, but enabling the first analog rail fails with -1. -/
def env_vsp_fails : Oracle := fun _ c =>
  match c with
  | .regulator_enable .avdd_lcd_vsp_5v5 => -1
  | .mipi_dsi_dcs_write _ _ _ => 1
  | _ => 0

/-- As `env_ok`, but every DCS write on link1 returns 0 (no byte
transmitted, no error). -/
def env_write_zero : Oracle := fun _ c =>
  match c with
  | .mipi_dsi_dcs_write .link1 _ _ => 0
  | .mipi_dsi_dcs_write _ _ _ => 1
  | _ => 0

/-- As `env_ok`, but exit-sleep on link1 fails with -5. -/
def env_exit_sleep_fails : Oracle := fun _ c =>
  match c with
  | .mipi_dsi_dcs_exit_sleep_mode .link1 => -5
  | .mipi_dsi_dcs_write _ _ _ => 1
  | _ => 0

/-- A freshly probed panel: no backlight, both flags clear, the fixed mode. -/
def sharp_idle : sharp_panel where
  backlight := none
  reset_gpio := 0
  prepared := false
  enabled := false
  mode := default_mode

/-- The freshly probed panel with all supplies off and nothing called yet. -/
def machine_idle : Machine where
  sharp := sharp_idle
  rails := Rails.all_off
  trace := []

/-- The state in which `sharp_panel_prepare` leaves `machine_idle` when
enabling the first analog rail fails: not prepared, the digital rail on. -/
def machine_rail_left_on : Machine where
  sharp := sharp_idle
  rails := ⟨true, false, false⟩
  trace := [.regulator_enable .dvdd_lcd_1v8, .msleep 12,
    .regulator_enable .avdd_lcd_vsp_5v5]

/-- A prepared and enabled panel with all supplies on. -/
def machine_active : Machine where
  sharp := { sharp_idle with prepared := true, enabled := true }
  rails := ⟨true, true, true⟩
  trace := []

/-- Every rail enable and every link command succeeds: no negative return,
and a DCS write reports at least the one byte it was given. -/
def all_succeed (env : Oracle) : Prop :=
  (∀ t r, 0 ≤ env t (.regulator_enable r)) ∧
  (∀ t dsi a b, 0 ≤ env t (.mipi_dsi_dcs_set_column_address dsi a b)) ∧
  (∀ t dsi a b, 0 ≤ env t (.mipi_dsi_dcs_set_page_address dsi a b)) ∧
  (∀ t dsi, 0 ≤ env t (.mipi_dsi_dcs_exit_sleep_mode dsi)) ∧
  (∀ t dsi format, 0 ≤ env t (.mipi_dsi_dcs_set_pixel_format dsi format)) ∧
  (∀ t dsi cmd data, 1 ≤ env t (.mipi_dsi_dcs_write dsi cmd data)) ∧
  (∀ t dsi, 0 ≤ env t (.mipi_dsi_dcs_set_display_on dsi))

/-- The rail phase of the power-on sequence. -/
def rail_sequence : List Call :=
  [.regulator_enable .dvdd_lcd_1v8, .msleep 12,
   .regulator_enable .avdd_lcd_vsp_5v5, .msleep 12,
   .regulator_enable .avdd_lcd_vsn_5v5, .msleep 70]

/-- The reset pulse on line `gpio`: high, 1-3 ms, low, 1-3 ms, high, 32 ms. -/
def reset_sequence (gpio : Int) : List Call :=
  [.gpio_direction_output gpio 1, .usleep_range 1000 3000,
   .gpio_set_value gpio 0, .usleep_range 1000 3000,
   .gpio_set_value gpio 1, .msleep 32]

/-- The command phase of the power-on sequence for the fixed mode. -/
def command_sequence : List Call :=
  [.mipi_dsi_dcs_set_column_address .link2 0 767,
   .mipi_dsi_dcs_set_page_address .link2 0 2047,
   .mipi_dsi_dcs_set_column_address .link1 768 1535,
   .mipi_dsi_dcs_set_page_address .link1 0 2047,
   .mipi_dsi_dcs_exit_sleep_mode .link1,
   .mipi_dsi_dcs_exit_sleep_mode .link2,
   .msleep 100,
   .mipi_dsi_dcs_set_pixel_format .link1 7,
   .mipi_dsi_dcs_set_pixel_format .link2 7,
   .mipi_dsi_dcs_write .link1 0x51 [0xFF],
   .mipi_dsi_dcs_write .link2 0x51 [0xFF],
   .msleep 20,
   .mipi_dsi_dcs_write .link1 0x55 [0x01],
   .mipi_dsi_dcs_write .link2 0x55 [0x01],
   .msleep 20,
   .mipi_dsi_dcs_write .link1 0x53 [0x01],
   .mipi_dsi_dcs_write .link2 0x53 [0x01],
   .msleep 20,
   .mipi_dsi_dcs_set_display_on .link1,
   .mipi_dsi_dcs_set_display_on .link2,
   .msleep 150]

/-- The machine `m2` arises from `m1` by collaborator calls alone: the
driver state is the same and the trace has only grown. -/
def follows (m1 m2 : Machine) : Prop :=
  m2.sharp = m1.sharp ∧ ∃ t, m2.trace = m1.trace ++ t

/-- The outcome of `sharp_panel_prepare` and of its command phase, seen
from the machine `m` it started on: success, returning 0 with `prepared`
set, or failure, returning a negative value with the driver state
untouched; either way the trace has only grown. -/
def prepare_outcome (m : Machine) (r : Int × Machine) : Prop :=
  (∃ t, r.2.trace = m.trace ++ t) ∧
  ((r.1 = 0 ∧ r.2.sharp = { m.sharp with prepared := true }) ∨
    (r.1 < 0 ∧ r.2.sharp = m.sharp))

/-- Recognises the level-set calls on the reset line. -/
def is_level_set (c : Call) : Bool :=
  match c with
  | .gpio_direction_output _ _ => true
  | .gpio_set_value _ _ => true
  | _ => false

/-- Recognises the DCS writes in a trace. -/
def is_dcs_write (c : Call) : Bool :=
  match c with
  | .mipi_dsi_dcs_write _ _ _ => true
  | _ => false

/-- The state in which a fully successful `sharp_panel_prepare` under
`env_ok` leaves `machine_idle`. -/
def machine_prepared : Machine where
  sharp := { sharp_idle with prepared := true }
  rails := ⟨true, true, true⟩
  trace := rail_sequence ++ [.gpio_get_value 0] ++ reset_sequence 0 ++ command_sequence


/-! ## Frame-timed delay -/

/-- C6: with refresh rate `r`, a request for more than `r` frames returns
without sleeping; a request for `1 ≤ f ≤ r` frames divides by the non-zero
`r / f` and sleeps exactly `1000 / (r / f)` ms.  At 60 Hz six frames are
100 ms and 61 frames are rejected; the six-frame wait of the fixed mode is
100 ms. -/
theorem sharp_wait_frames_delay (m : Machine) (r f : Nat)
    (hr : to_uint (drm_mode_vrefresh m.sharp.mode) = r) :
    (r < f → sharp_wait_frames m f = some m) ∧
    (1 ≤ f → f ≤ r → r / f ≠ 0 ∧
      sharp_wait_frames m f =
        some { m with trace := m.trace ++ [Call.msleep (1000 / (r / f))] }) ∧
    (r = 60 →
      sharp_wait_frames m 6 = some { m with trace := m.trace ++ [Call.msleep 100] } ∧
      sharp_wait_frames m 61 = some m) ∧
    (m.sharp.mode = default_mode →
      sharp_wait_frames m 6 = some { m with trace := m.trace ++ [Call.msleep 100] }) := by
  have key : ∀ g : Nat, 1 ≤ g → g ≤ r → r / g ≠ 0 ∧
      sharp_wait_frames m g =
        some { m with trace := m.trace ++ [Call.msleep (1000 / (r / g))] } := by
    intro g hg1 hgr
    have hpos : 0 < r / g := Nat.div_pos hgr hg1
    refine ⟨by omega, ?_⟩
    have h1 : ¬ g > r := by omega
    have h2 : ¬ g = 0 := by omega
    have h3 : ¬ r / g = 0 := by omega
    simp only [sharp_wait_frames, hr, h1, h2, h3, if_false, msleep, emit]
  refine ⟨?_, key f, ?_, ?_⟩
  · intro hlt
    have h1 : f > r := hlt
    simp only [sharp_wait_frames, hr, h1, if_true]
  · intro h60
    subst h60
    refine ⟨?_, ?_⟩
    · have := (key 6 (by norm_num) (by norm_num)).2
      simpa using this
    · simp [sharp_wait_frames, hr]
  · intro hmode
    have h60 : r = 60 := by
      rw [← hr, hmode]
      decide
    subst h60
    have := (key 6 (by norm_num) (by norm_num)).2
    simpa using this

/-- C6 at the freshly probed panel: 60 Hz, six frames. -/
theorem sharp_wait_frames_delay_witness :
    to_uint (drm_mode_vrefresh machine_idle.sharp.mode) = 60 ∧
    sharp_wait_frames machine_idle 6 =
      some { machine_idle with trace := machine_idle.trace ++ [Call.msleep 100] } ∧
    sharp_wait_frames machine_idle 61 = some machine_idle :=
  ⟨by decide,
    ((sharp_wait_frames_delay machine_idle 60 6 (by decide)).2.1 (by decide) (by decide)).2,
    (sharp_wait_frames_delay machine_idle 60 61 (by decide)).1 (by decide)⟩


/-! ## Split addressing -/

/-- On values that fit, the `u16` conversion is the identity. -/
theorem u16_of_fits (x : Int) (h0 : 0 ≤ x) (h1 : x < 65536) : u16 x = x.toNat := by
  unfold u16
  rw [Int.emod_eq_of_lt h0 h1]

/-- C5: for even `hdisplay ≥ 2` and `vdisplay ≥ 1` whose windows fit the
16-bit fields, when the four addressing commands succeed the split sends
columns `[0, h/2 - 1]` and rows `[0, v - 1]` to its first link, then columns
`[h/2, h - 1]` and the same rows to its second link, and returns 0; the two
column windows are disjoint, adjacent, both `h/2` wide, and cover exactly
`[0, h - 1]`. -/
theorem symmetrical_split_windows (env : Oracle) (left right : Link)
    (mode : drm_display_mode) (m : Machine) (h v : Nat)
    (hh : mode.hdisplay = (h : Int)) (hv : mode.vdisplay = (v : Int))
    (h2 : 2 ≤ h) (heven : h % 2 = 0) (hmax : h ≤ 65536)
    (v1 : 1 ≤ v) (vmax : v ≤ 65536)
    (hcol : ∀ t dsi a b, 0 ≤ env t (Call.mipi_dsi_dcs_set_column_address dsi a b))
    (hpage : ∀ t dsi a b, 0 ≤ env t (Call.mipi_dsi_dcs_set_page_address dsi a b)) :
    sharp_setup_symmetrical_split env left right mode m =
      (0, { m with trace := m.trace ++
        [Call.mipi_dsi_dcs_set_column_address left 0 (h / 2 - 1),
         Call.mipi_dsi_dcs_set_page_address left 0 (v - 1),
         Call.mipi_dsi_dcs_set_column_address right (h / 2) (h - 1),
         Call.mipi_dsi_dcs_set_page_address right 0 (v - 1)] }) ∧
    (∀ x : Nat, ¬ ((0 ≤ x ∧ x ≤ h / 2 - 1) ∧ (h / 2 ≤ x ∧ x ≤ h - 1))) ∧
    (h / 2 - 1) + 1 = h / 2 ∧
    (h / 2 - 1) + 1 - 0 = h / 2 ∧ (h - 1) + 1 - h / 2 = h / 2 ∧
    (∀ x : Nat, (0 ≤ x ∧ x ≤ h - 1) ↔
      ((0 ≤ x ∧ x ≤ h / 2 - 1) ∨ (h / 2 ≤ x ∧ x ≤ h - 1))) := by
  have e0 : u16 0 = 0 := by decide
  have e1 : u16 (mode.hdisplay.tdiv 2 - 1) = h / 2 - 1 := by
    rw [hh, Int.tdiv_eq_ediv (by omega) (by norm_num), u16_of_fits _ (by omega) (by omega)]
    omega
  have e2 : u16 (mode.hdisplay.tdiv 2) = h / 2 := by
    rw [hh, Int.tdiv_eq_ediv (by omega) (by norm_num), u16_of_fits _ (by omega) (by omega)]
    omega
  have e3 : u16 (mode.hdisplay - 1) = h - 1 := by
    rw [hh, u16_of_fits _ (by omega) (by omega)]
    omega
  have e4 : u16 (mode.vdisplay - 1) = v - 1 := by
    rw [hv, u16_of_fits _ (by omega) (by omega)]
    omega
  have ncol : ∀ t dsi a b, ¬ env t (Call.mipi_dsi_dcs_set_column_address dsi a b) < 0 :=
    fun t dsi a b => not_lt.mpr (hcol t dsi a b)
  have npage : ∀ t dsi a b, ¬ env t (Call.mipi_dsi_dcs_set_page_address dsi a b) < 0 :=
    fun t dsi a b => not_lt.mpr (hpage t dsi a b)
  refine ⟨?_, ?_, ?_, ?_, ?_, ?_⟩
  · simp [sharp_setup_symmetrical_split, mipi_dsi_dcs_set_column_address,
      mipi_dsi_dcs_set_page_address, call, e0, e1, e2, e3, e4, ncol, npage]
  · intro x
    omega
  · omega
  · omega
  · omega
  · intro x
    omega

/-- C5 at the fixed mode 1536x2048, as `sharp_panel_prepare` calls it:
columns `[0, 767]` then `[768, 1535]`, rows `[0, 2047]`. -/
theorem symmetrical_split_windows_witness :
    sharp_setup_symmetrical_split env_ok .link2 .link1 default_mode machine_idle =
      (0, { machine_idle with trace :=
        [Call.mipi_dsi_dcs_set_column_address .link2 0 767,
         Call.mipi_dsi_dcs_set_page_address .link2 0 2047,
         Call.mipi_dsi_dcs_set_column_address .link1 768 1535,
         Call.mipi_dsi_dcs_set_page_address .link1 0 2047] }) :=
  (symmetrical_split_windows env_ok .link2 .link1 default_mode machine_idle 1536 2048
    rfl rfl (by decide) (by decide) (by decide) (by decide) (by decide)
    (fun _ _ _ _ => Int.le_refl 0) (fun _ _ _ _ => Int.le_refl 0)).1


/-! ## Enable and disable -/

/-- C8: `sharp_panel_enable` and `sharp_panel_disable` return 0, switch no
rail, and add to the trace exactly one `backlight_update_status` when a
backlight is attached and the `enabled` flag changes, and nothing
otherwise, so no link command, no rail call and no reset-line call; in the
first case the backlight power becomes `FB_BLANK_UNBLANK` for enable and
`FB_BLANK_POWERDOWN` for disable, and in every other case it is unchanged. -/
theorem enable_disable_effects (env : Oracle) (m : Machine) :
    (sharp_panel_enable env m).1 = 0 ∧
    (sharp_panel_disable env m).1 = 0 ∧
    (sharp_panel_enable env m).2.rails = m.rails ∧
    (sharp_panel_disable env m).2.rails = m.rails ∧
    (sharp_panel_enable env m).2.trace = m.trace ++
      (if m.sharp.enabled = false ∧ m.sharp.backlight.isSome = true
        then [Call.backlight_update_status] else []) ∧
    (sharp_panel_disable env m).2.trace = m.trace ++
      (if m.sharp.enabled = true ∧ m.sharp.backlight.isSome = true
        then [Call.backlight_update_status] else []) ∧
    (sharp_panel_enable env m).2.sharp.backlight =
      (if m.sharp.enabled = false ∧ m.sharp.backlight.isSome = true
        then some FB_BLANK_UNBLANK else m.sharp.backlight) ∧
    (sharp_panel_disable env m).2.sharp.backlight =
      (if m.sharp.enabled = true ∧ m.sharp.backlight.isSome = true
        then some FB_BLANK_POWERDOWN else m.sharp.backlight) ∧
    (m.sharp.backlight = none →
      (sharp_panel_enable env m).2.trace = m.trace ∧
      (sharp_panel_disable env m).2.trace = m.trace) := by
  rcases m with ⟨⟨bl, gpio, prepared, enabled, mode⟩, rails, trace⟩
  cases enabled <;> cases bl <;>
    simp [sharp_panel_enable, sharp_panel_disable, backlight_update_status, call]

/-- C8 at a panel without a backlight: neither operation makes a call. -/
theorem enable_disable_effects_witness :
    (sharp_panel_enable env_ok machine_idle).2.trace = machine_idle.trace ∧
    (sharp_panel_disable env_ok machine_idle).2.trace = machine_idle.trace :=
  (enable_disable_effects env_ok machine_idle).2.2.2.2.2.2.2.2 rfl


/-! ## Unprepare -/

/-- C4 (amended): `sharp_panel_unprepare` always returns 0 and always
leaves `prepared` false, whatever the display-off and enter-sleep commands
return; started with `prepared` true it leaves all three rails off; started
with `prepared` false it changes nothing. -/
theorem unprepare_outcome (env : Oracle) (m : Machine) :
    (sharp_panel_unprepare env m).1 = 0 ∧
    (sharp_panel_unprepare env m).2.sharp.prepared = false ∧
    (m.sharp.prepared = true →
      (sharp_panel_unprepare env m).2.rails = Rails.all_off) ∧
    (m.sharp.prepared = false → (sharp_panel_unprepare env m).2 = m) := by
  rcases m with ⟨⟨bl, gpio, prepared, enabled, mode⟩, rails, trace⟩
  cases prepared <;>
    simp [sharp_panel_unprepare, mipi_dsi_dcs_set_display_off,
      mipi_dsi_dcs_enter_sleep_mode, regulator_disable, msleep, emit, call,
      Rails.set, Rails.all_off]

/-- C4 (amended) at a prepared panel with all rails on. -/
theorem unprepare_outcome_witness :
    machine_active.sharp.prepared = true ∧
    (sharp_panel_unprepare env_ok machine_active).2.rails = Rails.all_off :=
  ⟨rfl, (unprepare_outcome env_ok machine_active).2.2.1 rfl⟩

/-- C4 as stated fails: a failed `sharp_panel_prepare` leaves `prepared`
false with the digital rail on, and from there `sharp_panel_unprepare`
returns 0 without disabling it. -/
theorem unprepare_keeps_rail_when_not_prepared :
    sharp_panel_prepare env_vsp_fails machine_idle = some (-1, machine_rail_left_on) ∧
    sharp_panel_unprepare env_ok machine_rail_left_on = (0, machine_rail_left_on) ∧
    (sharp_panel_unprepare env_ok machine_rail_left_on).2.rails.dvdd_lcd_1v8 = true ∧
    ¬ ((sharp_panel_unprepare env_ok machine_rail_left_on).2.rails = Rails.all_off) := by
  decide

/-! ## Prepare: the failing inputs -/

/-- C1: the digital rail is enabled, enabling `avdd_lcd_vsp_5v5` returns
-1, and `sharp_panel_prepare` returns -1 with `prepared` false, the
digital rail still on and no `regulator_disable` issued. -/
theorem prepare_rail_failure_keeps_rail_on :
    env_vsp_fails [Call.regulator_enable .dvdd_lcd_1v8, Call.msleep 12]
      (Call.regulator_enable .avdd_lcd_vsp_5v5) = -1 ∧
    sharp_panel_prepare env_vsp_fails machine_idle =
      some (-1,
        { sharp := sharp_idle
          rails := ⟨true, false, false⟩
          trace := [Call.regulator_enable .dvdd_lcd_1v8, Call.msleep 12,
            Call.regulator_enable .avdd_lcd_vsp_5v5] }) := by
  decide

/-- C2: when the link-1 write returns 0, each of the three helpers returns
0 having written to link1 only, and `sharp_panel_prepare` carries on to
success: it returns 0 with `prepared` true and its only DCS writes are the
three on link1. -/
theorem dual_write_zero_skips_link2 :
    panel_sharp_write_display_brightness env_write_zero machine_idle =
      (0, { machine_idle with trace := [Call.mipi_dsi_dcs_write .link1 0x51 [0xFF]] }) ∧
    panel_sharp_write_adaptive_brightness_control env_write_zero machine_idle =
      (0, { machine_idle with trace := [Call.mipi_dsi_dcs_write .link1 0x55 [0x01]] }) ∧
    panel_sharp_write_control_display env_write_zero machine_idle =
      (0, { machine_idle with trace := [Call.mipi_dsi_dcs_write .link1 0x53 [0x01]] }) ∧
    (sharp_panel_prepare env_write_zero machine_idle).map
        (fun r => (r.1, r.2.sharp.prepared, r.2.trace.filter is_dcs_write)) =
      some (0, true,
        [Call.mipi_dsi_dcs_write .link1 0x51 [0xFF],
         Call.mipi_dsi_dcs_write .link1 0x55 [0x01],
         Call.mipi_dsi_dcs_write .link1 0x53 [0x01]]) := by
  decide

/-- C3: all three rails are enabled, exit-sleep on link1 returns -5, and
`sharp_panel_prepare` carries on exactly as if it had succeeded: it issues
every later step, returns 0 with `prepared` true and leaves the rails on. -/
theorem prepare_ignores_exit_sleep_failure :
    (∀ t, env_exit_sleep_fails t (Call.mipi_dsi_dcs_exit_sleep_mode .link1) = -5) ∧
    sharp_panel_prepare env_exit_sleep_fails machine_idle =
      sharp_panel_prepare env_ok machine_idle ∧
    (sharp_panel_prepare env_exit_sleep_fails machine_idle).map
        (fun r => (r.1, r.2.sharp.prepared, r.2.rails,
          r.2.trace.contains (Call.mipi_dsi_dcs_set_display_on .link2),
          r.2.trace.contains (Call.regulator_disable .dvdd_lcd_1v8))) =
      some (0, true, ⟨true, true, true⟩, true, false) := by
  refine ⟨fun _ => rfl, ?_, ?_⟩ <;> decide


/-! ## Prepare: the successful run -/

/-- The successful run of `sharp_panel_prepare` from an unprepared panel
with the fixed mode. -/
theorem prepare_success_run (env : Oracle) (m : Machine)
    (hidle : m.sharp.prepared = false) (hmode : m.sharp.mode = default_mode)
    (hok : all_succeed env) :
    sharp_panel_prepare env m =
      some (0,
        { sharp := { m.sharp with prepared := true }
          rails := ⟨true, true, true⟩
          trace := m.trace ++ rail_sequence ++
            [Call.gpio_get_value m.sharp.reset_gpio] ++
            (if env (m.trace ++ rail_sequence) (Call.gpio_get_value m.sharp.reset_gpio) = 0
              then reset_sequence m.sharp.reset_gpio else []) ++
            command_sequence }) := by
  obtain ⟨hre, hcol, hpage, -, hfmt, hwr, hon⟩ := hok
  have nre : ∀ t r, ¬ env t (Call.regulator_enable r) < 0 :=
    fun t r => not_lt.mpr (hre t r)
  have ncol : ∀ t dsi a b, ¬ env t (Call.mipi_dsi_dcs_set_column_address dsi a b) < 0 :=
    fun t dsi a b => not_lt.mpr (hcol t dsi a b)
  have npage : ∀ t dsi a b, ¬ env t (Call.mipi_dsi_dcs_set_page_address dsi a b) < 0 :=
    fun t dsi a b => not_lt.mpr (hpage t dsi a b)
  have nfmt : ∀ t dsi f, ¬ env t (Call.mipi_dsi_dcs_set_pixel_format dsi f) < 0 :=
    fun t dsi f => not_lt.mpr (hfmt t dsi f)
  have nwr : ∀ t dsi c d, ¬ env t (Call.mipi_dsi_dcs_write dsi c d) < 1 :=
    fun t dsi c d => not_lt.mpr (hwr t dsi c d)
  have non : ∀ t dsi, ¬ env t (Call.mipi_dsi_dcs_set_display_on dsi) < 0 :=
    fun t dsi => not_lt.mpr (hon t dsi)
  have e0 : u16 0 = 0 := by decide
  have e1 : u16 (default_mode.hdisplay.tdiv 2 - 1) = 767 := by decide
  have e2 : u16 (default_mode.hdisplay.tdiv 2) = 768 := by decide
  have e3 : u16 (default_mode.hdisplay - 1) = 1535 := by decide
  have e4 : u16 (default_mode.vdisplay - 1) = 2047 := by decide
  have e5 : to_uint (drm_mode_vrefresh default_mode) = 60 := by decide
  have d1 : TO_DSI 0x01 = 1 := by decide
  have d2 : TO_DSI 0xFF = 255 := by decide
  rcases m with ⟨⟨bl, gpio, prepared, enabled, mode⟩, rails, trace⟩
  simp only at hidle hmode
  subst hidle hmode
  by_cases hg : env (trace ++ rail_sequence) (Call.gpio_get_value gpio) = 0
  · have hg' := hg
    simp only [rail_sequence, List.append_assoc, List.cons_append, List.nil_append] at hg'
    simp [sharp_panel_prepare, prepare_commands, reset_pulse, poweroff,
      sharp_setup_symmetrical_split, sharp_wait_frames,
      panel_sharp_write_display_brightness, panel_sharp_write_adaptive_brightness_control,
      panel_sharp_write_control_display,
      regulator_enable, regulator_disable, msleep, usleep_range, gpio_get_value,
      gpio_direction_output, gpio_set_value, mipi_dsi_dcs_exit_sleep_mode,
      mipi_dsi_dcs_set_display_on, mipi_dsi_dcs_set_pixel_format,
      mipi_dsi_dcs_set_column_address, mipi_dsi_dcs_set_page_address,
      mipi_dsi_dcs_write, call, emit, Rails.set,
      MIPI_DCS_PIXEL_FMT_24BIT, MIPI_DCS_RSP_WRITE_DISPLAY_BRIGHTNESS,
      MIPI_DCS_RSP_WRITE_CONTROL_DISPLAY, MIPI_DCS_RSP_WRITE_ADAPTIVE_BRIGHTNESS_CONTROL,
      rail_sequence, reset_sequence, command_sequence,
      nre, ncol, npage, nfmt, nwr, non, e0, e1, e2, e3, e4, e5, d1, d2, hg']
  · have hg' := hg
    simp only [rail_sequence, List.append_assoc, List.cons_append, List.nil_append] at hg'
    simp [sharp_panel_prepare, prepare_commands, reset_pulse, poweroff,
      sharp_setup_symmetrical_split, sharp_wait_frames,
      panel_sharp_write_display_brightness, panel_sharp_write_adaptive_brightness_control,
      panel_sharp_write_control_display,
      regulator_enable, regulator_disable, msleep, usleep_range, gpio_get_value,
      gpio_direction_output, gpio_set_value, mipi_dsi_dcs_exit_sleep_mode,
      mipi_dsi_dcs_set_display_on, mipi_dsi_dcs_set_pixel_format,
      mipi_dsi_dcs_set_column_address, mipi_dsi_dcs_set_page_address,
      mipi_dsi_dcs_write, call, emit, Rails.set,
      MIPI_DCS_PIXEL_FMT_24BIT, MIPI_DCS_RSP_WRITE_DISPLAY_BRIGHTNESS,
      MIPI_DCS_RSP_WRITE_CONTROL_DISPLAY, MIPI_DCS_RSP_WRITE_ADAPTIVE_BRIGHTNESS_CONTROL,
      rail_sequence, reset_sequence, command_sequence,
      nre, ncol, npage, nfmt, nwr, non, e0, e1, e2, e3, e4, e5, d1, d2, hg']


/-! ## Prepare: every run -/

/-- The six-frame wait never divides by zero; it changes only the trace. -/
theorem sharp_wait_frames_six (m : Machine) :
    ∃ m', sharp_wait_frames m 6 = some m' ∧ m'.sharp = m.sharp ∧ m'.rails = m.rails ∧
      ∃ t, m'.trace = m.trace ++ t := by
  by_cases h : 6 > to_uint (drm_mode_vrefresh m.sharp.mode)
  · exact ⟨m, by simp [sharp_wait_frames, h], rfl, rfl, [], by simp⟩
  · have h3 : ¬ to_uint (drm_mode_vrefresh m.sharp.mode) / 6 = 0 := by omega
    refine ⟨msleep (1000 / (to_uint (drm_mode_vrefresh m.sharp.mode) / 6)) m, ?_, rfl, rfl,
      [Call.msleep (1000 / (to_uint (drm_mode_vrefresh m.sharp.mode) / 6))], rfl⟩
    simp only [sharp_wait_frames, h, h3, if_false]
    simp

theorem follows_refl (m : Machine) : follows m m :=
  ⟨rfl, [], by simp⟩

theorem follows_trans {m1 m2 m3 : Machine} (h12 : follows m1 m2) (h23 : follows m2 m3) :
    follows m1 m3 := by
  obtain ⟨s12, t12, e12⟩ := h12
  obtain ⟨s23, t23, e23⟩ := h23
  exact ⟨s23.trans s12, t12 ++ t23, by rw [e23, e12, List.append_assoc]⟩

theorem follows_call (env : Oracle) (c : Call) (m : Machine) : follows m (call env c m).2 :=
  ⟨rfl, [c], rfl⟩

theorem follows_emit (c : Call) (m : Machine) : follows m (emit c m) :=
  ⟨rfl, [c], rfl⟩

theorem follows_regulator_enable (env : Oracle) (r : Rail) (m : Machine) :
    follows m (regulator_enable env r m).2 :=
  ⟨rfl, [Call.regulator_enable r], rfl⟩

theorem follows_regulator_disable (env : Oracle) (r : Rail) (m : Machine) :
    follows m (regulator_disable env r m).2 :=
  ⟨rfl, [Call.regulator_disable r], rfl⟩

theorem follows_poweroff (env : Oracle) (err : Int) (m : Machine) :
    (poweroff env err m).1 = err ∧ follows m (poweroff env err m).2 :=
  ⟨rfl, follows_trans (follows_trans (follows_regulator_disable env _ m)
    (follows_regulator_disable env _ _)) (follows_regulator_disable env _ _)⟩

/-- A dual-link write made of two `mipi_dsi_dcs_write` calls only adds
calls to the trace. -/
theorem follows_dual_write (env : Oracle) (cmd : Nat) (data : List Nat) (m : Machine) :
    follows m
      (if (mipi_dsi_dcs_write env .link1 cmd data m).1 < 1
        then mipi_dsi_dcs_write env .link1 cmd data m
        else if (mipi_dsi_dcs_write env .link2 cmd data
            (mipi_dsi_dcs_write env .link1 cmd data m).2).1 < 1
          then mipi_dsi_dcs_write env .link2 cmd data
            (mipi_dsi_dcs_write env .link1 cmd data m).2
          else ((0 : Int), (mipi_dsi_dcs_write env .link2 cmd data
            (mipi_dsi_dcs_write env .link1 cmd data m).2).2)).2 := by
  have f1 : follows m (mipi_dsi_dcs_write env .link1 cmd data m).2 := follows_call _ _ _
  have f2 : follows m (mipi_dsi_dcs_write env .link2 cmd data
      (mipi_dsi_dcs_write env .link1 cmd data m).2).2 :=
    follows_trans f1 (follows_call _ _ _)
  split_ifs
  · exact f1
  · exact f2
  · exact f2

theorem follows_write_display_brightness (env : Oracle) (m : Machine) :
    follows m (panel_sharp_write_display_brightness env m).2 :=
  follows_dual_write env _ _ m

theorem follows_write_adaptive_brightness_control (env : Oracle) (m : Machine) :
    follows m (panel_sharp_write_adaptive_brightness_control env m).2 :=
  follows_dual_write env _ _ m

theorem follows_write_control_display (env : Oracle) (m : Machine) :
    follows m (panel_sharp_write_control_display env m).2 :=
  follows_dual_write env _ _ m

theorem follows_symmetrical_split (env : Oracle) (left right : Link)
    (mode : drm_display_mode) (m : Machine) :
    follows m (sharp_setup_symmetrical_split env left right mode m).2 := by
  unfold sharp_setup_symmetrical_split
  simp only [mipi_dsi_dcs_set_column_address, mipi_dsi_dcs_set_page_address]
  generalize hc1 : Call.mipi_dsi_dcs_set_column_address left (u16 0)
    (u16 (mode.hdisplay.tdiv 2 - 1)) = c1
  generalize hc2 : Call.mipi_dsi_dcs_set_page_address left (u16 0)
    (u16 (mode.vdisplay - 1)) = c2
  generalize hc3 : Call.mipi_dsi_dcs_set_column_address right (u16 (mode.hdisplay.tdiv 2))
    (u16 (mode.hdisplay - 1)) = c3
  generalize hc4 : Call.mipi_dsi_dcs_set_page_address right (u16 0)
    (u16 (mode.vdisplay - 1)) = c4
  have f1 : follows m (call env c1 m).2 := follows_call _ _ _
  have f2 := follows_trans f1 (follows_call env c2 _)
  have f3 := follows_trans f2 (follows_call env c3 _)
  have f4 := follows_trans f3 (follows_call env c4 _)
  split_ifs
  · exact f1
  · exact f2
  · exact f3
  · exact f4
  · exact f4

theorem follows_reset_pulse (env : Oracle) (m : Machine) :
    follows m (reset_pulse env m) := by
  unfold reset_pulse
  simp only [gpio_get_value, gpio_direction_output, gpio_set_value, usleep_range, msleep]
  have f0 : follows m (call env (Call.gpio_get_value m.sharp.reset_gpio) m).2 :=
    follows_call _ _ _
  split_ifs
  · exact follows_trans (follows_trans (follows_trans (follows_trans (follows_trans
      (follows_trans f0 (follows_call env _ _)) (follows_emit _ _)) (follows_emit _ _))
      (follows_emit _ _)) (follows_emit _ _)) (follows_emit _ _)
  · exact f0

theorem prepare_outcome_fail {m : Machine} {r : Int × Machine}
    (hneg : r.1 < 0) (hf : follows m r.2) : prepare_outcome m r :=
  ⟨hf.2, Or.inr ⟨hneg, hf.1⟩⟩

theorem prepare_outcome_poweroff (env : Oracle) {m : Machine} {x : Int × Machine}
    (hneg : x.1 < 0) (hf : follows m x.2) : prepare_outcome m (poweroff env x.1 x.2) :=
  prepare_outcome_fail hneg (follows_trans hf (follows_poweroff env x.1 x.2).2)

theorem prepare_outcome_mono {m0 m : Machine} {r : Int × Machine}
    (hf : follows m0 m) (h : prepare_outcome m r) : prepare_outcome m0 r := by
  obtain ⟨hs, t0, ht0⟩ := hf
  obtain ⟨⟨t, ht⟩, h⟩ := h
  refine ⟨⟨t0 ++ t, by rw [ht, ht0, List.append_assoc]⟩, ?_⟩
  rw [hs] at h
  exact h

/-- Every run of the command phase is a `prepare_outcome`. -/
theorem prepare_commands_cases (env : Oracle) (m : Machine) :
    prepare_outcome m (prepare_commands env m) := by
  unfold prepare_commands
  simp only []
  generalize hx1 : mipi_dsi_dcs_set_pixel_format env .link1 MIPI_DCS_PIXEL_FMT_24BIT m = x1
  have f1 : follows m x1.2 := by
    rw [← hx1]
    exact follows_call _ _ _
  by_cases c1 : x1.1 < 0
  · rw [if_pos c1]
    exact prepare_outcome_poweroff env c1 f1
  rw [if_neg c1]
  generalize hx2 : mipi_dsi_dcs_set_pixel_format env .link2 MIPI_DCS_PIXEL_FMT_24BIT x1.2 = x2
  have g2 : follows x1.2 x2.2 := by
    rw [← hx2]
    exact follows_call _ _ _
  have f2 : follows m x2.2 := follows_trans f1 g2
  by_cases c2 : x2.1 < 0
  · rw [if_pos c2]
    exact prepare_outcome_poweroff env c2 f2
  rw [if_neg c2]
  generalize hx3 : panel_sharp_write_display_brightness env x2.2 = x3
  have f3 : follows m x3.2 :=
    follows_trans f2 (hx3 ▸ follows_write_display_brightness _ _)
  by_cases c3 : x3.1 < 0
  · rw [if_pos c3]
    exact prepare_outcome_poweroff env c3 f3
  rw [if_neg c3]
  generalize hx4 : panel_sharp_write_adaptive_brightness_control env (msleep 20 x3.2) = x4
  have f4 : follows m x4.2 :=
    follows_trans (follows_trans f3 (follows_emit _ _))
      (hx4 ▸ follows_write_adaptive_brightness_control _ _)
  by_cases c4 : x4.1 < 0
  · rw [if_pos c4]
    exact prepare_outcome_poweroff env c4 f4
  rw [if_neg c4]
  generalize hx5 : panel_sharp_write_control_display env (msleep 20 x4.2) = x5
  have f5 : follows m x5.2 :=
    follows_trans (follows_trans f4 (follows_emit _ _))
      (hx5 ▸ follows_write_control_display _ _)
  by_cases c5 : x5.1 < 0
  · rw [if_pos c5]
    exact prepare_outcome_poweroff env c5 f5
  rw [if_neg c5]
  generalize hx6 : mipi_dsi_dcs_set_display_on env .link1 (msleep 20 x5.2) = x6
  have g6 : follows (msleep 20 x5.2) x6.2 := by
    rw [← hx6]
    exact follows_call _ _ _
  have f6 : follows m x6.2 := follows_trans (follows_trans f5 (follows_emit _ _)) g6
  by_cases c6 : x6.1 < 0
  · rw [if_pos c6]
    exact prepare_outcome_poweroff env c6 f6
  rw [if_neg c6]
  generalize hx7 : mipi_dsi_dcs_set_display_on env .link2 x6.2 = x7
  have g7 : follows x6.2 x7.2 := by
    rw [← hx7]
    exact follows_call _ _ _
  have f7 : follows m x7.2 := follows_trans f6 g7
  by_cases c7 : x7.1 < 0
  · rw [if_pos c7]
    exact prepare_outcome_poweroff env c7 f7
  rw [if_neg c7]
  have f8 : follows m (msleep 150 x7.2) := follows_trans f7 (follows_emit _ _)
  refine ⟨f8.2, Or.inl ⟨rfl, ?_⟩⟩
  show ({ (msleep 150 x7.2).sharp with prepared := true } : sharp_panel) = _
  rw [f8.1]


/-- Every run of `sharp_panel_prepare` from an unprepared panel returns, is
a `prepare_outcome`, and starts by enabling the digital rail. -/
theorem prepare_cases (env : Oracle) (m : Machine) (hidle : m.sharp.prepared = false) :
    ∃ r, sharp_panel_prepare env m = some r ∧ prepare_outcome m r ∧
      ∃ rest, r.2.trace = m.trace ++ Call.regulator_enable .dvdd_lcd_1v8 :: rest := by
  have key : ∃ r, sharp_panel_prepare env m = some r ∧
      prepare_outcome (regulator_enable env .dvdd_lcd_1v8 m).2 r := by
    unfold sharp_panel_prepare
    simp only [hidle, Bool.false_eq_true, if_false]
    generalize hx1 : regulator_enable env .dvdd_lcd_1v8 m = x1
    by_cases c1 : x1.1 < 0
    · rw [if_pos c1]
      exact ⟨x1, rfl, prepare_outcome_fail c1 (follows_refl _)⟩
    rw [if_neg c1]
    generalize hx2 : regulator_enable env .avdd_lcd_vsp_5v5 (msleep 12 x1.2) = x2
    have f2 : follows x1.2 x2.2 := by
      rw [← hx2]
      exact follows_trans (follows_emit _ _) (follows_regulator_enable _ _ _)
    by_cases c2 : x2.1 < 0
    · rw [if_pos c2]
      exact ⟨x2, rfl, prepare_outcome_fail c2 f2⟩
    rw [if_neg c2]
    generalize hx3 : regulator_enable env .avdd_lcd_vsn_5v5 (msleep 12 x2.2) = x3
    have f3 : follows x1.2 x3.2 := by
      rw [← hx3]
      exact follows_trans f2 (follows_trans (follows_emit _ _)
        (follows_regulator_enable _ _ _))
    by_cases c3 : x3.1 < 0
    · rw [if_pos c3]
      exact ⟨x3, rfl, prepare_outcome_fail c3 f3⟩
    rw [if_neg c3]
    generalize hm4 : reset_pulse env (msleep 70 x3.2) = m4
    have f4 : follows x1.2 m4 := by
      rw [← hm4]
      exact follows_trans f3 (follows_trans (follows_emit _ _) (follows_reset_pulse _ _))
    generalize hx5 : sharp_setup_symmetrical_split env .link2 .link1 m4.sharp.mode m4 = x5
    have f5 : follows x1.2 x5.2 := by
      rw [← hx5]
      exact follows_trans f4 (follows_symmetrical_split _ _ _ _ _)
    by_cases c5 : x5.1 < 0
    · rw [if_pos c5]
      exact ⟨_, rfl, prepare_outcome_poweroff env c5 f5⟩
    rw [if_neg c5]
    generalize hm6 : (mipi_dsi_dcs_exit_sleep_mode env .link2
      (mipi_dsi_dcs_exit_sleep_mode env .link1 x5.2).2).2 = m6
    have f6 : follows x1.2 m6 := by
      rw [← hm6]
      exact follows_trans f5 (follows_trans (follows_call _ _ _) (follows_call _ _ _))
    obtain ⟨mw, hw, hws, -, tw, htw⟩ := sharp_wait_frames_six m6
    rw [hw]
    exact ⟨_, rfl, prepare_outcome_mono (follows_trans f6 ⟨hws, tw, htw⟩)
      (prepare_commands_cases env mw)⟩
  obtain ⟨r, hr, ⟨t, ht⟩, hcase⟩ := key
  refine ⟨r, hr, ⟨⟨Call.regulator_enable .dvdd_lcd_1v8 :: t, ?_⟩, hcase⟩, t, ?_⟩
  · rw [ht]
    simp [regulator_enable]
  · rw [ht]
    simp [regulator_enable]


theorem poweroff_rails (env : Oracle) (err : Int) (m : Machine) :
    (poweroff env err m).2.rails = Rails.all_off := by
  simp [poweroff, regulator_disable, Rails.set, Rails.all_off]

/-- A failing command phase has switched all three rails off. -/
theorem prepare_commands_rails (env : Oracle) (m : Machine)
    (h : (prepare_commands env m).1 < 0) :
    (prepare_commands env m).2.rails = Rails.all_off := by
  revert h
  unfold prepare_commands
  simp only []
  generalize mipi_dsi_dcs_set_pixel_format env .link1 MIPI_DCS_PIXEL_FMT_24BIT m = x1
  by_cases c1 : x1.1 < 0
  · rw [if_pos c1]
    exact fun _ => poweroff_rails env _ _
  rw [if_neg c1]
  generalize mipi_dsi_dcs_set_pixel_format env .link2 MIPI_DCS_PIXEL_FMT_24BIT x1.2 = x2
  by_cases c2 : x2.1 < 0
  · rw [if_pos c2]
    exact fun _ => poweroff_rails env _ _
  rw [if_neg c2]
  generalize panel_sharp_write_display_brightness env x2.2 = x3
  by_cases c3 : x3.1 < 0
  · rw [if_pos c3]
    exact fun _ => poweroff_rails env _ _
  rw [if_neg c3]
  generalize panel_sharp_write_adaptive_brightness_control env (msleep 20 x3.2) = x4
  by_cases c4 : x4.1 < 0
  · rw [if_pos c4]
    exact fun _ => poweroff_rails env _ _
  rw [if_neg c4]
  generalize panel_sharp_write_control_display env (msleep 20 x4.2) = x5
  by_cases c5 : x5.1 < 0
  · rw [if_pos c5]
    exact fun _ => poweroff_rails env _ _
  rw [if_neg c5]
  generalize mipi_dsi_dcs_set_display_on env .link1 (msleep 20 x5.2) = x6
  by_cases c6 : x6.1 < 0
  · rw [if_pos c6]
    exact fun _ => poweroff_rails env _ _
  rw [if_neg c6]
  generalize mipi_dsi_dcs_set_display_on env .link2 x6.2 = x7
  by_cases c7 : x7.1 < 0
  · rw [if_pos c7]
    exact fun _ => poweroff_rails env _ _
  rw [if_neg c7]
  intro h
  exact absurd h (lt_irrefl (0 : Int))

/-- Once the three rails are enabled, every failure that
`sharp_panel_prepare` reports comes through `poweroff`: a negative return
means all three rails are off and `prepared` is still false. -/
theorem prepare_failure_unwinds (env : Oracle) (m : Machine)
    (hidle : m.sharp.prepared = false)
    (hre : ∀ t r, 0 ≤ env t (Call.regulator_enable r)) :
    ∃ r, sharp_panel_prepare env m = some r ∧
      (r.1 < 0 → r.2.rails = Rails.all_off ∧ r.2.sharp.prepared = false) := by
  obtain ⟨r, hr, ⟨-, hcase⟩, -⟩ := prepare_cases env m hidle
  refine ⟨r, hr, fun hneg => ⟨?_, ?_⟩⟩
  · revert hr
    unfold sharp_panel_prepare
    simp only [hidle, Bool.false_eq_true, if_false]
    have n1 : ∀ m1 rl, ¬ (regulator_enable env rl m1).1 < 0 :=
      fun m1 rl => not_lt.mpr (hre _ _)
    rw [if_neg (n1 _ _), if_neg (n1 _ _), if_neg (n1 _ _)]
    generalize reset_pulse env (msleep 70 (regulator_enable env .avdd_lcd_vsn_5v5
      (msleep 12 (regulator_enable env .avdd_lcd_vsp_5v5
        (msleep 12 (regulator_enable env .dvdd_lcd_1v8 m).2)).2)).2) = m4
    generalize sharp_setup_symmetrical_split env .link2 .link1 m4.sharp.mode m4 = x5
    by_cases c5 : x5.1 < 0
    · rw [if_pos c5]
      intro hr
      rw [← Option.some.inj hr]
      exact poweroff_rails env _ _
    rw [if_neg c5]
    generalize (mipi_dsi_dcs_exit_sleep_mode env .link2
      (mipi_dsi_dcs_exit_sleep_mode env .link1 x5.2).2).2 = m6
    obtain ⟨mw, hw, -, -, -, -⟩ := sharp_wait_frames_six m6
    rw [hw]
    intro hr
    have e := Option.some.inj hr
    subst e
    exact prepare_commands_rails env mw hneg
  · rcases hcase with ⟨h0, -⟩ | ⟨-, hs⟩
    · omega
    · rw [hs]
      exact hidle

theorem env_ok_all_succeed : all_succeed env_ok :=
  ⟨fun _ _ => Int.le_refl 0, fun _ _ _ _ => Int.le_refl 0, fun _ _ _ _ => Int.le_refl 0,
    fun _ _ => Int.le_refl 0, fun _ _ _ => Int.le_refl 0, fun _ _ _ _ => Int.le_refl 1,
    fun _ _ => Int.le_refl 0⟩

theorem env_reset_high_all_succeed : all_succeed env_reset_high :=
  ⟨fun _ _ => Int.le_refl 0, fun _ _ _ _ => Int.le_refl 0, fun _ _ _ _ => Int.le_refl 0,
    fun _ _ => Int.le_refl 0, fun _ _ _ => Int.le_refl 0, fun _ _ _ _ => Int.le_refl 1,
    fun _ _ => Int.le_refl 0⟩

/-! ## Prepare: the claims about every run -/

/-- C9: from an unprepared panel with the fixed mode, when every rail
enable and every link command succeeds, `sharp_panel_prepare` returns 0
with `prepared` set and all rails on, and the calls it makes are exactly:
the rail sequence (digital, 12 ms, vsp, 12 ms, vsn, 70 ms), one read of the
reset line, the reset pulse if and only if that read returned 0, and the
command sequence (split addressing, exit-sleep on link1 then link2, 100 ms,
pixel format 24-bit on both links, brightness 0xFF on both links, 20 ms,
adaptive brightness 0x01 on both links, 20 ms, display control 0x01 on both
links, 20 ms, display-on on link1 then link2, 150 ms).  When the reset line
reads high no level-set call is made and the rail and command sequences
still run in full. -/
theorem prepare_success_sequence (env : Oracle) (m : Machine)
    (hidle : m.sharp.prepared = false) (hmode : m.sharp.mode = default_mode)
    (hok : all_succeed env) :
    sharp_panel_prepare env m =
      some (0,
        { sharp := { m.sharp with prepared := true }
          rails := ⟨true, true, true⟩
          trace := m.trace ++ rail_sequence ++
            [Call.gpio_get_value m.sharp.reset_gpio] ++
            (if env (m.trace ++ rail_sequence) (Call.gpio_get_value m.sharp.reset_gpio) = 0
              then reset_sequence m.sharp.reset_gpio else []) ++
            command_sequence }) ∧
    (env (m.trace ++ rail_sequence) (Call.gpio_get_value m.sharp.reset_gpio) ≠ 0 →
      ∃ r, sharp_panel_prepare env m = some r ∧ r.1 = 0 ∧ r.2.sharp.prepared = true ∧
        r.2.trace = m.trace ++
          (rail_sequence ++ [Call.gpio_get_value m.sharp.reset_gpio] ++ command_sequence) ∧
        (rail_sequence ++ [Call.gpio_get_value m.sharp.reset_gpio] ++
          command_sequence).filter is_level_set = []) := by
  have run := prepare_success_run env m hidle hmode hok
  refine ⟨run, fun hhigh => ⟨_, run, rfl, rfl, ?_, ?_⟩⟩
  · simp [hhigh]
  · simp [rail_sequence, command_sequence, is_level_set]

/-- C9 at the freshly probed panel with the reset line reading high. -/
theorem prepare_success_sequence_witness :
    sharp_panel_prepare env_reset_high machine_idle =
      some (0,
        { sharp := { sharp_idle with prepared := true }
          rails := ⟨true, true, true⟩
          trace := rail_sequence ++ [Call.gpio_get_value 0] ++ command_sequence }) :=
  (prepare_success_sequence env_reset_high machine_idle rfl rfl
    env_reset_high_all_succeed).1

/-- C7: when `sharp_panel_prepare` has returned 0, calling it again right
away returns 0 and leaves the whole machine as it was: no call of any kind
is added to the trace, no rail changes, the driver state is the same. -/
theorem prepare_idempotent (env env2 : Oracle) (m m1 : Machine)
    (h : sharp_panel_prepare env m = some (0, m1)) :
    sharp_panel_prepare env2 m1 = some (0, m1) := by
  have hp : m1.sharp.prepared = true := by
    by_cases hm : m.sharp.prepared = true
    · have : sharp_panel_prepare env m = some (0, m) := by
        simp [sharp_panel_prepare, hm]
      rw [this] at h
      have e : m = m1 := by
        have := Option.some.inj h
        exact (Prod.mk.inj this).2
      rw [← e]
      exact hm
    · have hm' : m.sharp.prepared = false := by simpa using hm
      obtain ⟨r, hr, ⟨-, hcase⟩, -⟩ := prepare_cases env m hm'
      rw [hr] at h
      have e := Option.some.inj h
      subst e
      rcases hcase with ⟨-, hs⟩ | ⟨hneg, -⟩
      · simp only at hs
        rw [hs]
      · simp at hneg
  simp [sharp_panel_prepare, hp]

/-- C7 at the freshly probed panel with every call succeeding. -/
theorem prepare_idempotent_witness :
    sharp_panel_prepare env_ok machine_idle = some (0, machine_prepared) ∧
    sharp_panel_prepare env_ok machine_prepared = some (0, machine_prepared) :=
  ⟨by decide, prepare_idempotent env_ok env_ok machine_idle machine_prepared (by decide)⟩

/-- C10: `sharp_panel_prepare` (which always returns) and
`sharp_panel_unprepare` leave `enabled` unchanged; `sharp_panel_enable` and
`sharp_panel_disable` leave `prepared` unchanged, set `enabled` to true and
to false, and behave the same whatever `prepared` is.  From a prepared and
enabled panel, unprepare yields `prepared` false with `enabled` still true,
and a following prepare is not a no-op: it starts by enabling the digital
rail and, when every call succeeds on the fixed mode, runs the full
power-on sequence and returns 0. -/
theorem flags_independent (env : Oracle) (m : Machine) :
    (∃ r, sharp_panel_prepare env m = some r ∧ r.2.sharp.enabled = m.sharp.enabled) ∧
    (sharp_panel_unprepare env m).2.sharp.enabled = m.sharp.enabled ∧
    (sharp_panel_enable env m).2.sharp.prepared = m.sharp.prepared ∧
    (sharp_panel_disable env m).2.sharp.prepared = m.sharp.prepared ∧
    (sharp_panel_enable env m).2.sharp.enabled = true ∧
    (sharp_panel_disable env m).2.sharp.enabled = false ∧
    (∀ b : Bool,
      sharp_panel_enable env { m with sharp := { m.sharp with prepared := b } } =
        ((sharp_panel_enable env m).1, { (sharp_panel_enable env m).2 with
          sharp := { (sharp_panel_enable env m).2.sharp with prepared := b } }) ∧
      sharp_panel_disable env { m with sharp := { m.sharp with prepared := b } } =
        ((sharp_panel_disable env m).1, { (sharp_panel_disable env m).2 with
          sharp := { (sharp_panel_disable env m).2.sharp with prepared := b } })) ∧
    (m.sharp.prepared = true → m.sharp.enabled = true →
      (sharp_panel_unprepare env m).2.sharp.prepared = false ∧
      (sharp_panel_unprepare env m).2.sharp.enabled = true ∧
      ∀ env2 : Oracle,
        (∃ r rest, sharp_panel_prepare env2 (sharp_panel_unprepare env m).2 = some r ∧
          r.2.sharp.enabled = true ∧
          r.2.trace = (sharp_panel_unprepare env m).2.trace ++
            Call.regulator_enable .dvdd_lcd_1v8 :: rest) ∧
        (all_succeed env2 → m.sharp.mode = default_mode →
          ∃ r, sharp_panel_prepare env2 (sharp_panel_unprepare env m).2 = some r ∧
            r.1 = 0 ∧ r.2.sharp.prepared = true ∧ r.2.sharp.enabled = true ∧
            r.2.trace = (sharp_panel_unprepare env m).2.trace ++ rail_sequence ++
              [Call.gpio_get_value m.sharp.reset_gpio] ++
              (if env2 ((sharp_panel_unprepare env m).2.trace ++ rail_sequence)
                  (Call.gpio_get_value m.sharp.reset_gpio) = 0
                then reset_sequence m.sharp.reset_gpio else []) ++
              command_sequence)) := by
  have hun : (sharp_panel_unprepare env m).2.sharp = { m.sharp with prepared := false } := by
    rcases m with ⟨⟨bl, gpio, prepared, enabled, mode⟩, rails, trace⟩
    cases prepared <;>
      simp [sharp_panel_unprepare, mipi_dsi_dcs_set_display_off,
        mipi_dsi_dcs_enter_sleep_mode, regulator_disable, msleep, emit, call]
  refine ⟨?_, ?_, ?_, ?_, ?_, ?_, ?_, ?_⟩
  · by_cases hm : m.sharp.prepared = true
    · exact ⟨(0, m), by simp [sharp_panel_prepare, hm], rfl⟩
    · have hm' : m.sharp.prepared = false := by simpa using hm
      obtain ⟨r, hr, ⟨-, hcase⟩, -⟩ := prepare_cases env m hm'
      refine ⟨r, hr, ?_⟩
      rcases hcase with ⟨-, hs⟩ | ⟨-, hs⟩ <;> rw [hs]
  · rw [hun]
  · rcases m with ⟨⟨bl, gpio, prepared, enabled, mode⟩, rails, trace⟩
    cases enabled <;> cases bl <;> simp [sharp_panel_enable, backlight_update_status, call]
  · rcases m with ⟨⟨bl, gpio, prepared, enabled, mode⟩, rails, trace⟩
    cases enabled <;> cases bl <;> simp [sharp_panel_disable, backlight_update_status, call]
  · rcases m with ⟨⟨bl, gpio, prepared, enabled, mode⟩, rails, trace⟩
    cases enabled <;> cases bl <;> simp [sharp_panel_enable, backlight_update_status, call]
  · rcases m with ⟨⟨bl, gpio, prepared, enabled, mode⟩, rails, trace⟩
    cases enabled <;> cases bl <;> simp [sharp_panel_disable, backlight_update_status, call]
  · intro b
    rcases m with ⟨⟨bl, gpio, prepared, enabled, mode⟩, rails, trace⟩
    cases enabled <;> cases bl <;>
      simp [sharp_panel_enable, sharp_panel_disable, backlight_update_status, call]
  · intro hp he
    have hidle : (sharp_panel_unprepare env m).2.sharp.prepared = false := by rw [hun]
    have hen : (sharp_panel_unprepare env m).2.sharp.enabled = true := by
      rw [hun]
      exact he
    refine ⟨hidle, hen, fun env2 => ⟨?_, ?_⟩⟩
    · obtain ⟨r, hr, ⟨-, hcase⟩, rest, hrest⟩ :=
        prepare_cases env2 (sharp_panel_unprepare env m).2 hidle
      refine ⟨r, rest, hr, ?_, hrest⟩
      rcases hcase with ⟨-, hs⟩ | ⟨-, hs⟩ <;> rw [hs] <;> exact hen
    · intro hok hmode
      have hmode2 : (sharp_panel_unprepare env m).2.sharp.mode = default_mode := by
        rw [hun]
        exact hmode
      have hgpio : (sharp_panel_unprepare env m).2.sharp.reset_gpio = m.sharp.reset_gpio := by
        rw [hun]
      have run := prepare_success_run env2 (sharp_panel_unprepare env m).2 hidle hmode2 hok
      rw [hgpio] at run
      exact ⟨_, run, rfl, rfl, hen, rfl⟩

/-- C10 at a prepared and enabled panel: after unprepare, prepare runs the
power-on sequence again. -/
theorem flags_independent_witness :
    (sharp_panel_unprepare env_ok machine_active).2.sharp.prepared = false ∧
    (sharp_panel_unprepare env_ok machine_active).2.sharp.enabled = true ∧
    ∃ r rest, sharp_panel_prepare env_ok (sharp_panel_unprepare env_ok machine_active).2 =
        some r ∧ r.2.sharp.enabled = true ∧
      r.2.trace = (sharp_panel_unprepare env_ok machine_active).2.trace ++
        Call.regulator_enable .dvdd_lcd_1v8 :: rest :=
  have h := (flags_independent env_ok machine_active).2.2.2.2.2.2.2 rfl rfl
  ⟨h.1, h.2.1, (h.2.2 env_ok).1⟩

end SharpPanel
